import Mathlib

/-!
Verification of the equipment-scraping repository's normalization and
triage pipeline (`src/scrapers/spiders/quality_farm_supply.py`,
`src/scrapers/pipelines.py`, `src/core/models.py`).

The Python code is shallowly embedded: strings are Lean `String`s
manipulated through helpers that model the Python string methods used by
the source (`replace`, `strip`, `split`, `startswith`, `upper`, `lower`,
char membership); Python `float`/`int` parsing of decimal literals is
modelled over `ℚ`/`ℤ` (exponent forms, `inf`/`nan` and digit
underscores never occur in the data handled here and are outside the
model); fallible parsing returns `Option`; dictionaries are ordered
association lists with overwrite-in-place assignment, matching Python
`dict` semantics for the operations the source performs.
-/

namespace QFS

/-! ## Python string primitives -/

/-- Python `str.strip()` (whitespace at both ends). -/
def pyStrip (s : String) : String :=
  ⟨((s.data.dropWhile Char.isWhitespace).reverse.dropWhile Char.isWhitespace).reverse⟩

/-- Python `c in s` for a single-character needle. -/
def pyContains (s : String) (c : Char) : Bool := s.data.contains c

/-- Python `s.startswith(pre)`. -/
def pyStartsWith (s pre : String) : Bool := pre.data.isPrefixOf s.data

/-- Python `s[n:]` (drop the first `n` code points). -/
def pyDrop (s : String) (n : ℕ) : String := ⟨s.data.drop n⟩

/-- Python `len(s)` (code-point count). -/
def pyLen (s : String) : ℕ := s.data.length

/-- Python `s.upper()` (ASCII case mapping suffices for this data). -/
def pyUpper (s : String) : String := ⟨s.data.map Char.toUpper⟩

/-- Python `s.lower()` (ASCII case mapping suffices for this data). -/
def pyLower (s : String) : String := ⟨s.data.map Char.toLower⟩

/-- Python `s.isdigit()` (ASCII digits; the source only meets ASCII). -/
def pyIsDigit (s : String) : Bool := !s.data.isEmpty && s.data.all Char.isDigit

/-- Python `s.split(sep)` for a one-character separator: keeps empty
chunks, splits at every occurrence. -/
def pySplitChar (c : Char) (s : List Char) : List (List Char) :=
  s.foldr
    (fun a acc =>
      match acc with
      | [] => [[a]]
      | h :: t => if a = c then [] :: h :: t else (a :: h) :: t)
    [[]]

/-- Fuelled left-to-right non-overlapping replacement (the fuel is the
length of the subject, which always suffices since a nonempty pattern
consumes at least one character per step). -/
def pyReplaceAux (pat rep : List Char) : ℕ → List Char → List Char
  | _, [] => []
  | 0, s => s
  | fuel + 1, c :: cs =>
    if pat.isPrefixOf (c :: cs) && !pat.isEmpty then
      rep ++ pyReplaceAux pat rep fuel ((c :: cs).drop pat.length)
    else
      c :: pyReplaceAux pat rep fuel cs

/-- Python `s.replace(pat, rep)`: every non-overlapping occurrence,
scanning left to right. -/
def pyReplace (s pat rep : String) : String :=
  ⟨pyReplaceAux pat.data rep.data s.data.length s.data⟩

/-- Python `s.split(maxsplit=1)` with no separator argument: split on
the first run of whitespace, dropping leading whitespace. -/
def pySplitMax1 (t : String) : List String :=
  let cs := t.data.dropWhile Char.isWhitespace
  if cs.isEmpty then []
  else
    let first := cs.takeWhile (fun c => !c.isWhitespace)
    let rest := (cs.dropWhile (fun c => !c.isWhitespace)).dropWhile Char.isWhitespace
    if rest.isEmpty then [⟨first⟩] else [⟨first⟩, ⟨rest⟩]

/-! ## Python numeric literal parsing -/

/-- Value of a digit string. -/
def digitsToNat (cs : List Char) : ℕ := cs.foldl (fun n c => 10 * n + (c.toNat - 48)) 0

/-- Python `int(s)` on decimal literals: optional surrounding
whitespace, optional sign, then digits; `None` models `ValueError`. -/
def pythonInt? (s : String) : Option ℤ :=
  let core : List Char → Option ℤ := fun cs =>
    if !cs.isEmpty && cs.all Char.isDigit then some (digitsToNat cs) else none
  match (pyStrip s).data with
  | '-' :: rest => (core rest).map Neg.neg
  | '+' :: rest => core rest
  | cs => core cs

/-- Python `float(s)` on plain decimal literals: optional surrounding
whitespace, optional sign, digits with at most one decimal point and at
least one digit; `None` models `ValueError`. -/
def pythonFloat? (s : String) : Option ℚ :=
  let core : List Char → Option ℚ := fun cs =>
    match pySplitChar '.' cs with
    | [a] =>
      if !a.isEmpty && a.all Char.isDigit then some (digitsToNat a : ℚ) else none
    | [a, b] =>
      if a.all Char.isDigit && b.all Char.isDigit && !(a.isEmpty && b.isEmpty) then
        some ((digitsToNat a : ℚ) + (digitsToNat b : ℚ) / (10 : ℚ) ^ b.length)
      else none
    | _ => none
  match (pyStrip s).data with
  | '-' :: rest => (core rest).map Neg.neg
  | '+' :: rest => core rest
  | cs => core cs

/-! ## `extract_numeric` (quality_farm_supply.py lines 382-409) -/

/-- The unit/separator stripping pass of `extract_numeric`: remove `","`,
`"lbs"`, `"HP"`, `"hp"`, `"in"`, `"gal"`, `"gpm"`, `"psi"` in that
order, then strip whitespace. -/
def stripUnits (v : String) : String :=
  pyStrip (pyReplace (pyReplace (pyReplace (pyReplace (pyReplace (pyReplace (pyReplace
    (pyReplace v "," "") "lbs" "") "HP" "") "hp" "") "in" "") "gal" "") "gpm" "") "psi" "")

/-- The range pass of `extract_numeric`: if the cleaned string contains
a hyphen and does not start with one, keep the stripped part before the
first hyphen. -/
def hyphenStep (c : String) : String :=
  if pyContains c '-' && !pyStartsWith c "-" then
    pyStrip ⟨(pySplitChar '-' c.data).headD []⟩
  else c

/-- The compound/slash pass plus final float parse of `extract_numeric`:
a string splitting into exactly two `/`-parts parses its second part;
otherwise the whole (nonempty) string is parsed, a caught `ValueError`
yielding `none`. -/
def slashStep (c : String) : Option ℚ :=
  if pyContains c '/' then
    let parts := pySplitChar '/' c.data
    if parts.length == 2 then pythonFloat? ⟨parts.getD 1 []⟩
    else if c != "" then pythonFloat? c else none
  else if c != "" then pythonFloat? c else none

/-- `extract_numeric` from `_map_api_response_to_tractor`: `None`, the
literal `"null"` and whitespace-only strings give `None`; otherwise
units are stripped and the range/compound passes run before the float
parse, any failure returning `None` instead of raising. -/
def extract_numeric (value : Option String) : Option ℚ :=
  match value with
  | none => none
  | some v =>
    if v == "" || v == "null" || pyStrip v == "" then none
    else slashStep (hyphenStep (stripUnits v))

/-! ## Gear specification parsing (quality_farm_supply.py lines 454-494)

The `Fwd rev standard` block assigns `forward_gears`/`reverse_gears`
independently; the pair of optional results is modelled as one function
(the spec's `parse_gear_notation`). -/

/-- Value of one digit character, as Python `int(s[i])`. -/
def digitVal (c : Char) : ℤ := (c.toNat - 48 : ℕ)

/-- Pattern 1 of the gear block: `"8F/4R"`-style tokens. Each
`/`-separated part of the uppercased string containing `F` (or,
failing that, `R`) sets the corresponding field when the part with the
letter removed parses as an int; later parts overwrite earlier ones. -/
def gearLetterFold (parts : List String) : Option ℤ × Option ℤ :=
  parts.foldl
    (fun fr part =>
      if pyContains part 'F' then
        match pythonInt? (pyReplace part "F" "") with
        | some n => (some n, fr.2)
        | none => fr
      else if pyContains part 'R' then
        match pythonInt? (pyReplace part "R" "") with
        | some n => (fr.1, some n)
        | none => fr
      else fr)
    (none, none)

/-- The `Fwd rev standard` parser: guard against falsy/`"null"` input,
then pattern 1 (`F`/`R` letters), pattern 2 (slash-separated, first two
parts, forward kept when only the reverse part fails to parse), pattern
3 (bare digit strings: length 2-3 take the first two digit characters,
longer strings are left unparsed as ambiguous). -/
def parseFwdRev (s : String) : Option ℤ × Option ℤ :=
  if s == "" || s == "null" then (none, none)
  else
    let up := pyUpper s
    if pyContains up 'F' && pyContains up 'R' then
      gearLetterFold ((pySplitChar '/' up.data).map fun cs => (⟨cs⟩ : String))
    else if pyContains s '/' then
      let parts := pySplitChar '/' s.data
      if parts.length ≥ 2 then
        match pythonInt? ⟨parts.getD 0 []⟩ with
        | none => (none, none)
        | some f => (some f, pythonInt? ⟨parts.getD 1 []⟩)
      else (none, none)
    else if pyIsDigit s && s.data.length ≥ 2 then
      if s.data.length ≤ 3 then
        match s.data with
        | c1 :: c2 :: _ => (some (digitVal c1), some (digitVal c2))
        | _ => (none, none)
      else (none, none)
    else (none, none)

/-! ## Make/model title parsing (quality_farm_supply.py lines 103-193) -/

/-- The spider's `known_makes` list, verbatim and in source order. -/
def knownMakes : List String :=
  ["Massey Ferguson", "Massey-Ferguson", "Massey-Harris", "Rumely Oil Pull",
   "Allis Chalmers", "Fiat Hesston", "Silver King", "Deutz-Allis",
   "Minneapolis-Moline", "Mpls-Moline", "Agco White", "David Brown",
   "Deutz-Fahr", "John Deere", "New Holland", "Agco Allis", "Caterpillar",
   "Cockshutt", "Cub Cadet", "Hart-Parr", "Case IH", "Case-IH", "Cla-Power",
   "Field King", "JI Case", "Twin City", "Agcostar", "Ferguson", "Universal",
   "Versatile", "Big Bud", "McCormick", "Mitsubishi", "International",
   "Kubota", "Landini", "Leyland", "Nuffield", "Steiger", "Ferrari",
   "Goldoni", "Belarus", "Co-Op", "Deutz", "Eagle", "Avery", "Bison",
   "Claas", "Fendt", "Kioti", "Long", "Oliver", "Same", "Satoh", "White",
   "Valtra", "Yanmar", "Zetor", "AGCO", "Ford", "CBT", "IMT", "Memo"]

/-- `_parse_make_model`: strip the title, return the first known make
that prefixes it with a nonempty remaining model, else fall back to
splitting off the first word, yielding `None` for single-word titles. -/
def parseMakeModel (title : String) : Option (String × String) :=
  let t := pyStrip title
  match knownMakes.find? (fun mk => pyStartsWith t mk && (pyStrip (pyDrop t (pyLen mk)) != "")) with
  | some mk => some (mk, pyStrip (pyDrop t (pyLen mk)))
  | none =>
    match pySplitMax1 t with
    | a :: b :: _ => some (a, b)
    | _ => none

/-! ## Python dictionaries of scraped items

Items flowing through the pipelines are Python dicts with string keys.
They are modelled as ordered association lists; assignment overwrites
in place (Python dicts keep the original position of an updated key)
and otherwise appends. -/

/-- A Python value occurring in a scraped item: `str`, `int`, `float`
(as `ℚ`) or `None`. -/
inductive PVal where
  | pstr : String → PVal
  | pint : ℤ → PVal
  | pnum : ℚ → PVal
  | pnone : PVal
deriving DecidableEq, Repr

/-- A scraped-item dictionary. -/
abbrev Dict := List (String × PVal)

/-- Python `d.get(k)` / `d[k]` lookup. -/
def dget (d : Dict) (k : String) : Option PVal :=
  (d.find? (fun p => p.1 == k)).map Prod.snd

/-- Python `k in d`. -/
def dmem (d : Dict) (k : String) : Bool := d.any (fun p => p.1 == k)

/-- Python `d[k] = v`. -/
def dset (d : Dict) (k : String) (v : PVal) : Dict :=
  if dmem d k then d.map (fun p => if p.1 == k then (k, v) else p)
  else d ++ [(k, v)]

/-! ## The decoded `spec` payload

`_map_api_response_to_tractor` reads `api_data.get("spec", {})`.  The
raw spec mapping is modelled as a list of key / string-or-null pairs
(the shapes the API delivers); the payload wrapper records how the
`spec` field arrived and, for JSON-encoded strings, what `json.loads`
produced, since the decoder itself is outside the embedding. -/

/-- A decoded spec mapping: keys to string values or JSON `null`. -/
abbrev SpecBag := List (String × Option String)

/-- `spec_data.get(k)`: `none` for a missing key or a `null` value
(the source treats both as falsy/absent). -/
def bagGet (b : SpecBag) (k : String) : Option String :=
  ((b.find? (fun p => p.1 == k)).map Prod.snd).join

/-- How the `spec` field of the API response arrived. -/
inductive SpecPayload where
  /-- No `spec` key: `api_data.get("spec", {})` yields `{}`. -/
  | missing : SpecPayload
  /-- A JSON-encoded string that fails to decode (`json.JSONDecodeError`). -/
  | strUndecodable : SpecPayload
  /-- A JSON-encoded string that decodes to a mapping. -/
  | strDict : SpecBag → SpecPayload
  /-- A JSON-encoded string that decodes to a non-mapping value. -/
  | strNonDict : SpecPayload
  /-- A mapping delivered directly. -/
  | dictVal : SpecBag → SpecPayload
  /-- Any other value (list, number, ...). -/
  | nonDict : SpecPayload

/-- The mapping the source proceeds with after the decode/isinstance
checks: `some bag` continues into field mapping (an undecodable string
continues with `{}`), `none` is the early `return mapped_data` for
non-mapping spec data. -/
def specBagOf : SpecPayload → Option SpecBag
  | .missing => some []
  | .strUndecodable => some []
  | .strDict b => some b
  | .strNonDict => none
  | .dictVal b => some b
  | .nonDict => none

/-! ## The Spec Mapper (quality_farm_supply.py lines 341-547) -/

/-- One walrus-guarded numeric field assignment
(`if x := extract_numeric(spec_data.get(raw)): mapped_data[out] = x`):
the field is set only when extraction succeeds with a truthy (nonzero)
value. -/
def mapNumField (bag : SpecBag) (rawKey outKey : String) (d : Dict) : Dict :=
  match extract_numeric (bagGet bag rawKey) with
  | some q => if q ≠ 0 then dset d outKey (.pnum q) else d
  | none => d

/-- The `Years manufactured` block: split on `-`; the first segment
sets `year_start` and the second sets `year_end`, each only when it
parses as an int, each failure passing silently. -/
def mapYears (bag : SpecBag) (d : Dict) : Dict :=
  match bagGet bag "Years manufactured" with
  | none => d
  | some ym =>
    if ym != "" then
      let years := (pySplitChar '-' ym.data).map fun cs => (⟨cs⟩ : String)
      let d := match pythonInt? (pyStrip (years.getD 0 "")) with
        | some n => dset d "year_start" (.pint n)
        | none => d
      if years.length ≥ 2 then
        match pythonInt? (pyStrip (years.getD 1 "")) with
        | some n => dset d "year_end" (.pint n)
        | none => d
      else d
    else d

/-- The fixed transmission-abbreviation table of the source. -/
def transMap : List (String × String) :=
  [("CM", "manual"), ("CMT", "manual"), ("MANUAL", "manual"),
   ("HYDRO", "hydrostatic"), ("HYDROSTAT", "hydrostatic"),
   ("HYDROSTATIC", "hydrostatic"), ("PS", "powershift"),
   ("POWERSHIFT", "powershift"), ("CVT", "cvt"), ("IVT", "ivt")]

/-- The `Transmission std` block: for truthy non-`"null"` values, look
up the stripped uppercased text in the abbreviation table, falling back
to the lowercased text. -/
def mapTransmission (bag : SpecBag) (d : Dict) : Dict :=
  match bagGet bag "Transmission std" with
  | none => d
  | some ts =>
    if ts != "" && ts != "null" then
      let tv := pyUpper (pyStrip ts)
      dset d "transmission_type"
        (.pstr (((transMap.find? (fun p => p.1 == tv)).map Prod.snd).getD (pyLower tv)))
    else d

/-- The `Fwd rev standard` block: run the gear parser and set whichever
of the two fields it produced. -/
def mapGears (bag : SpecBag) (d : Dict) : Dict :=
  match bagGet bag "Fwd rev standard" with
  | none => d
  | some s =>
    let fr := parseFwdRev s
    let d := match fr.1 with
      | some n => dset d "forward_gears" (.pint n)
      | none => d
    match fr.2 with
    | some n => dset d "reverse_gears" (.pint n)
    | none => d

/-- The hydraulics block: `Hydraulics flow` sets `hydraulic_flow`;
`Hydraulics capacity` is used as a fallback for the same field only
when it was not already set. -/
def mapHydraulics (bag : SpecBag) (d : Dict) : Dict :=
  let d := mapNumField bag "Hydraulics flow" "hydraulic_flow" d
  match extract_numeric (bagGet bag "Hydraulics capacity") with
  | some q =>
    if q ≠ 0 then
      if !dmem d "hydraulic_flow" then dset d "hydraulic_flow" (.pnum q) else d
    else d
  | none => d

/-- Append a labelled fragment to `description`, initializing it to the
empty string when absent, as the source's repeated
`if "description" not in mapped_data: ...; mapped_data["description"] += ...`. -/
def appendDesc (d : Dict) (frag : String) : Dict :=
  let cur := match dget d "description" with
    | some (.pstr s) => s
    | _ => ""
  dset d "description" (.pstr (cur ++ frag))

/-- One free-text field appended into the description when truthy and
not the `"null"` sentinel. -/
def mapDescField (bag : SpecBag) (rawKey pre post : String) (d : Dict) : Dict :=
  match bagGet bag rawKey with
  | none => d
  | some v => if v != "" && v != "null" then appendDesc d (pre ++ v ++ post) else d

/-- The four free-text fragments, in source order. -/
def mapDescriptions (bag : SpecBag) (d : Dict) : Dict :=
  mapDescField bag "Engine cylinders cid" "Cylinders/CID: " ". "
    (mapDescField bag "Engine fueld type" "Fuel: " ". "
      (mapDescField bag "Engine make" "Engine: " ". "
        (mapDescField bag "Pto speed" "PTO Speed: " " RPM. " d)))

/-- The final `description` cleanup: strip the accumulated text. -/
def cleanupDesc (d : Dict) : Dict :=
  if dmem d "description" then
    match dget d "description" with
    | some (.pstr s) => dset d "description" (.pstr (pyStrip s))
    | _ => d
  else d

/-- All spec-field mapping blocks of the source, in order: years,
power, transmission, gears, hydraulics, physical specs, hitch,
description fragments, cleanup. -/
def mapSpecFields (bag : SpecBag) (d : Dict) : Dict :=
  cleanupDesc
    (mapDescriptions bag
      (mapNumField bag "Hitch lift" "hitch_lift_capacity"
        (mapNumField bag "Wheelbase inches" "wheelbase_inches"
          (mapNumField bag "Weight" "weight_lbs"
            (mapHydraulics bag
              (mapGears bag
                (mapTransmission bag
                  (mapNumField bag "Hp engine" "engine_hp"
                    (mapNumField bag "Hp pto" "pto_hp"
                      (mapYears bag d))))))))))

/-- `_map_api_response_to_tractor`: the base identity fields are set
first; non-mapping spec data returns them alone, otherwise the field
mapping runs over the decoded mapping. -/
def mapApiResponseToTractor (payload : SpecPayload)
    (make_name model_name source_url : String) : Dict :=
  let mapped : Dict :=
    [("make", .pstr make_name), ("model", .pstr model_name),
     ("category", .pstr "tractor"), ("source_url", .pstr source_url)]
  match specBagOf payload with
  | none => mapped
  | some bag => mapSpecFields bag mapped

/-! ## Pydantic models (core/models.py)

Construction of the pydantic models is modelled as a list of failed
field checks: construction succeeds iff the list is empty.  Pydantic's
lax coercions that can fire on this pipeline's data are included
(numeric strings and integral floats for `int` fields, ints and numeric
strings for `float` fields).  The `created_at`/`updated_at` timestamp
fields are defaulted at construction and never supplied by the
pipeline; they are outside the model. -/

/-- `EquipmentCategory` values. -/
def pyCategories : List String :=
  ["tractor", "combine", "implement", "harvester", "planter", "sprayer", "other"]

/-- `TransmissionType` values. -/
def transmissionEnum : List String :=
  ["manual", "powershift", "cvt", "hydrostatic", "ivt", "other"]

/-- `SeparatorType` values. -/
def separatorEnum : List String := ["conventional", "rotary", "hybrid"]

/-- `SprayerBoomType` values. -/
def boomEnum : List String := ["rigid", "folding", "truss", "hybrid", "other"]

/-- A required `str` field: present and a string. -/
def reqStr : Option PVal → Bool
  | some (.pstr _) => true
  | _ => false

/-- An optional `str | None` field. -/
def okOptStr : Option PVal → Bool
  | none => true
  | some .pnone => true
  | some (.pstr _) => true
  | _ => false

/-- The value an `int` field validates to, when any. -/
def coerceInt? : PVal → Option ℤ
  | .pint z => some z
  | .pnum q => if q.den = 1 then some q.num else none
  | .pstr s => pythonInt? s
  | .pnone => none

/-- The value a `float` field validates to, when any. -/
def coerceNum? : PVal → Option ℚ
  | .pint z => some (z : ℚ)
  | .pnum q => some q
  | .pstr s => pythonFloat? s
  | .pnone => none

/-- An optional bounded `int` field (`ge`/`le`). -/
def okOptIntRange (lo hi : ℤ) : Option PVal → Bool
  | none => true
  | some .pnone => true
  | some v =>
    match coerceInt? v with
    | some z => decide (lo ≤ z ∧ z ≤ hi)
    | none => false

/-- An optional `int` field with only a lower bound. -/
def okOptIntGE (lo : ℤ) : Option PVal → Bool
  | none => true
  | some .pnone => true
  | some v =>
    match coerceInt? v with
    | some z => decide (lo ≤ z)
    | none => false

/-- An optional non-negative `float` field. -/
def okOptNumGE0 : Option PVal → Bool
  | none => true
  | some .pnone => true
  | some v =>
    match coerceNum? v with
    | some q => decide (0 ≤ q)
    | none => false

/-- An optional bounded `float` field (sprayer `boom_width_ft`). -/
def okOptNumRange (lo hi : ℚ) : Option PVal → Bool
  | none => true
  | some .pnone => true
  | some v =>
    match coerceNum? v with
    | some q => decide (lo ≤ q ∧ q ≤ hi)
    | none => false

/-- An optional enumeration field: the exact enum value string. -/
def okOptEnum (vals : List String) : Option PVal → Bool
  | none => true
  | some .pnone => true
  | some (.pstr s) => vals.contains s
  | _ => false

/-- The required `category` field of `CommonEquipment`. -/
def okReqCategory : Option PVal → Bool
  | some (.pstr s) => pyCategories.contains s
  | _ => false

/-- The `category: Literal[...] = <default>` field of the subclasses:
absent (defaulted) or exactly the literal. -/
def okLitCategory (c : String) : Option PVal → Bool
  | none => true
  | some (.pstr s) => s == c
  | _ => false

/-- Error-list entry helper: one failed-check tag. -/
def chk (ok : Bool) (fieldName : String) : List String :=
  if ok then [] else [fieldName]

/-- The validated value of a year field when it is present, non-`None`
and in range, as seen by the `validate_year_range` validator through
`info.data`. -/
def yearVal? (d : Dict) (k : String) : Option ℤ :=
  match dget d k with
  | some v =>
    match coerceInt? v with
    | some z => if 1900 ≤ z ∧ z ≤ 2100 then some z else none
    | none => none
  | none => none

/-- The `validate_year_range` cross-field validator: when both years
validated, `year_end >= year_start`. -/
def yearRangeOk (d : Dict) : Bool :=
  match yearVal? d "year_start", yearVal? d "year_end" with
  | some ys, some ye => decide (ys ≤ ye)
  | _, _ => true

/-- Failed checks for the `CommonEquipment` fields other than
`category` (shared by every subclass). -/
def commonFieldErrors (d : Dict) : List String :=
  chk (reqStr (dget d "make")) "make" ++
  chk (reqStr (dget d "model")) "model" ++
  chk (okOptStr (dget d "brand")) "brand" ++
  chk (okOptStr (dget d "series")) "series" ++
  chk (okOptStr (dget d "submodel")) "submodel" ++
  chk (okOptIntRange 1900 2100 (dget d "year_start")) "year_start" ++
  chk (okOptIntRange 1900 2100 (dget d "year_end")) "year_end" ++
  chk (yearRangeOk d) "year_end>=year_start" ++
  chk (okOptStr (dget d "description")) "description" ++
  chk (okOptStr (dget d "image_url")) "image_url" ++
  chk (okOptStr (dget d "source_url")) "source_url"

/-- `CommonEquipment(**d)` failed checks. -/
def commonErrors (d : Dict) : List String :=
  chk (okReqCategory (dget d "category")) "category" ++ commonFieldErrors d

/-- `Tractor(**d)` failed checks. -/
def tractorErrors (d : Dict) : List String :=
  chk (okLitCategory "tractor" (dget d "category")) "category" ++
  commonFieldErrors d ++
  chk (okOptNumGE0 (dget d "pto_hp")) "pto_hp" ++
  chk (okOptNumGE0 (dget d "engine_hp")) "engine_hp" ++
  chk (okOptIntRange 0 10000 (dget d "rated_rpm")) "rated_rpm" ++
  chk (okOptEnum transmissionEnum (dget d "transmission_type")) "transmission_type" ++
  chk (okOptIntGE 0 (dget d "forward_gears")) "forward_gears" ++
  chk (okOptIntGE 0 (dget d "reverse_gears")) "reverse_gears" ++
  chk (okOptNumGE0 (dget d "hydraulic_flow")) "hydraulic_flow" ++
  chk (okOptNumGE0 (dget d "hydraulic_pressure")) "hydraulic_pressure" ++
  chk (okOptIntGE 0 (dget d "rear_remote_valves")) "rear_remote_valves" ++
  chk (okOptNumGE0 (dget d "weight_lbs")) "weight_lbs" ++
  chk (okOptNumGE0 (dget d "wheelbase_inches")) "wheelbase_inches" ++
  chk (okOptNumGE0 (dget d "hitch_lift_capacity")) "hitch_lift_capacity"

/-- `Combine(**d)` failed checks. -/
def combineErrors (d : Dict) : List String :=
  chk (okLitCategory "combine" (dget d "category")) "category" ++
  commonFieldErrors d ++
  chk (okOptNumGE0 (dget d "engine_hp")) "engine_hp" ++
  chk (okOptEnum separatorEnum (dget d "separator_type")) "separator_type" ++
  chk (okOptNumGE0 (dget d "separator_width_inches")) "separator_width_inches" ++
  chk (okOptNumGE0 (dget d "rotor_width_inches")) "rotor_width_inches" ++
  chk (okOptNumGE0 (dget d "grain_tank_capacity_bu")) "grain_tank_capacity_bu" ++
  chk (okOptNumGE0 (dget d "unloading_rate_bu_min")) "unloading_rate_bu_min" ++
  chk (okOptNumGE0 (dget d "unloading_auger_length_ft")) "unloading_auger_length_ft" ++
  chk (okOptNumGE0 (dget d "weight_lbs")) "weight_lbs"

/-- The validated value of a ground-speed field, as seen by
`validate_speed_range` through `info.data`. -/
def speedVal? (d : Dict) (k : String) : Option ℚ :=
  match dget d k with
  | some v =>
    match coerceNum? v with
    | some q => if 0 ≤ q then some q else none
    | none => none
  | none => none

/-- The sprayer `validate_speed_range` cross-field validator. -/
def speedRangeOk (d : Dict) : Bool :=
  match speedVal? d "ground_speed_mph_min", speedVal? d "ground_speed_mph_max" with
  | some a, some b => decide (a ≤ b)
  | _, _ => true

/-- An optional `bool | None` field. -/
def okOptBool : Option PVal → Bool
  | none => true
  | some .pnone => true
  | some (.pstr _) => false
  | some (.pint _) => false
  | some (.pnum _) => false

/-- `Sprayer(**d)` failed checks. -/
def sprayerErrors (d : Dict) : List String :=
  chk (okLitCategory "sprayer" (dget d "category")) "category" ++
  commonFieldErrors d ++
  chk (okOptNumGE0 (dget d "engine_hp")) "engine_hp" ++
  chk (okOptIntRange 0 10000 (dget d "rated_rpm")) "rated_rpm" ++
  chk (okOptNumGE0 (dget d "tank_capacity_gal")) "tank_capacity_gal" ++
  chk (okOptStr (dget d "tank_material")) "tank_material" ++
  chk (okOptNumRange 0 200 (dget d "boom_width_ft")) "boom_width_ft" ++
  chk (okOptNumGE0 (dget d "boom_height_ft")) "boom_height_ft" ++
  chk (okOptEnum boomEnum (dget d "boom_type")) "boom_type" ++
  chk (okOptNumGE0 (dget d "nozzle_spacing_inches")) "nozzle_spacing_inches" ++
  chk (okOptIntGE 0 (dget d "number_of_nozzles")) "number_of_nozzles" ++
  chk (okOptNumGE0 (dget d "application_rate_gal_per_acre")) "application_rate_gal_per_acre" ++
  chk (okOptNumGE0 (dget d "swath_width_ft")) "swath_width_ft" ++
  chk (okOptNumGE0 (dget d "ground_speed_mph_min")) "ground_speed_mph_min" ++
  chk (okOptNumGE0 (dget d "ground_speed_mph_max")) "ground_speed_mph_max" ++
  chk (speedRangeOk d) "ground_speed_mph_max>=min" ++
  chk (okOptStr (dget d "pump_type")) "pump_type" ++
  chk (okOptNumGE0 (dget d "pump_capacity_gal_min")) "pump_capacity_gal_min" ++
  chk (okOptStr (dget d "tire_type")) "tire_type" ++
  chk (okOptIntGE 0 (dget d "number_of_wheels")) "number_of_wheels" ++
  chk (okOptBool (dget d "row_crop_capable")) "row_crop_capable" ++
  chk (okOptNumGE0 (dget d "weight_lbs")) "weight_lbs" ++
  chk (okOptNumGE0 (dget d "wheelbase_inches")) "wheelbase_inches" ++
  chk (okOptNumGE0 (dget d "transport_width_ft")) "transport_width_ft"

/-- The validated value of a required-hp field, as seen by
`validate_hp_range` through `info.data`. -/
def hpVal? (d : Dict) (k : String) : Option ℚ :=
  match dget d k with
  | some v =>
    match coerceNum? v with
    | some q => if 0 ≤ q then some q else none
    | none => none
  | none => none

/-- The implement `validate_hp_range` cross-field validator. -/
def hpRangeOk (d : Dict) : Bool :=
  match hpVal? d "required_hp_min", hpVal? d "required_hp_max" with
  | some a, some b => decide (a ≤ b)
  | _, _ => true

/-- `Implement(**d)` failed checks. -/
def implementErrors (d : Dict) : List String :=
  chk (okLitCategory "implement" (dget d "category")) "category" ++
  commonFieldErrors d ++
  chk (okOptNumGE0 (dget d "working_width_ft")) "working_width_ft" ++
  chk (okOptNumGE0 (dget d "working_width_inches")) "working_width_inches" ++
  chk (okOptNumGE0 (dget d "transport_width_ft")) "transport_width_ft" ++
  chk (okOptNumGE0 (dget d "weight_lbs")) "weight_lbs" ++
  chk (okOptNumGE0 (dget d "required_hp_min")) "required_hp_min" ++
  chk (okOptNumGE0 (dget d "required_hp_max")) "required_hp_max" ++
  chk (hpRangeOk d) "required_hp_max>=min" ++
  chk (okOptIntGE 0 (dget d "number_of_rows")) "number_of_rows" ++
  chk (okOptNumGE0 (dget d "row_spacing_inches")) "row_spacing_inches"

/-- `CommonEquipment` field names in declaration order (timestamps
excluded from the model). -/
def commonFields : List String :=
  ["make", "model", "category", "brand", "series", "submodel",
   "year_start", "year_end", "description", "image_url", "source_url"]

/-- `Tractor`-specific field names. -/
def tractorOwnFields : List String :=
  ["pto_hp", "engine_hp", "rated_rpm", "transmission_type",
   "forward_gears", "reverse_gears", "hydraulic_flow",
   "hydraulic_pressure", "rear_remote_valves", "weight_lbs",
   "wheelbase_inches", "hitch_lift_capacity"]

/-- `Combine`-specific field names. -/
def combineOwnFields : List String :=
  ["engine_hp", "separator_type", "separator_width_inches",
   "rotor_width_inches", "grain_tank_capacity_bu",
   "unloading_rate_bu_min", "unloading_auger_length_ft", "weight_lbs"]

/-- `Sprayer`-specific field names. -/
def sprayerOwnFields : List String :=
  ["engine_hp", "rated_rpm", "tank_capacity_gal", "tank_material",
   "boom_width_ft", "boom_height_ft", "boom_type",
   "nozzle_spacing_inches", "number_of_nozzles",
   "application_rate_gal_per_acre", "swath_width_ft",
   "ground_speed_mph_min", "ground_speed_mph_max", "pump_type",
   "pump_capacity_gal_min", "tire_type", "number_of_wheels",
   "row_crop_capable", "weight_lbs", "wheelbase_inches",
   "transport_width_ft"]

/-- `Implement`-specific field names. -/
def implementOwnFields : List String :=
  ["working_width_ft", "working_width_inches", "transport_width_ft",
   "weight_lbs", "required_hp_min", "required_hp_max",
   "number_of_rows", "row_spacing_inches"]

/-- `model_dump()`: the model's closed field set, each field carrying
the supplied value or the `None` default; unknown input keys are
dropped.  For the subclasses `category` dumps as the literal.  (Value
coercion inside the dump is not modelled; no property below inspects a
dumped value beyond `category`.) -/
def modelDump (fields : List String) (cat : Option String) (d : Dict) : Dict :=
  fields.map fun f =>
    if f == "category" then
      (f, (cat.map PVal.pstr).getD ((dget d f).getD .pnone))
    else (f, (dget d f).getD .pnone)

/-- `create_equipment`: dispatch on the `category` value, validate the
chosen model; `.ok` carries the `model_dump()` result, `.error` the
stringified `ValidationError`. -/
def createEquipment (d : Dict) : Except String Dict :=
  let res : List String × List String × Option String :=
    match dget d "category" with
    | some (.pstr "tractor") =>
      (tractorErrors d, commonFields ++ tractorOwnFields, some "tractor")
    | some (.pstr "combine") =>
      (combineErrors d, commonFields ++ combineOwnFields, some "combine")
    | some (.pstr "sprayer") =>
      (sprayerErrors d, commonFields ++ sprayerOwnFields, some "sprayer")
    | some (.pstr "implement") =>
      (implementErrors d, commonFields ++ implementOwnFields, some "implement")
    | _ => (commonErrors d, commonFields, none)
  if res.1.isEmpty then .ok (modelDump res.2.1 res.2.2 d)
  else .error ("ValidationError: " ++ String.intercalate ", " res.1)

/-! ## ValidationPipeline (pipelines.py lines 51-95)

`process_item` catches `ValidationError` (and any other exception) and
returns the original item augmented with the two error fields instead
of raising.  Within this embedding every construction failure is a
`ValidationError` (the generic `except` arm needs an exception outside
dictionary data, e.g. non-string keys). -/

/-- `ValidationPipeline.process_item`: the validated dump on success,
otherwise the original item with `_validation_error` and `_error_type`
assigned (overwriting any same-named incoming keys, as `{**item, ...}`
does). -/
def processItem (d : Dict) : Dict :=
  match createEquipment d with
  | .ok v => v
  | .error e =>
    dset (dset d "_validation_error" (.pstr e)) "_error_type" (.pstr "ValidationError")

/-! ## UnityCatalogWriterPipeline (pipelines.py lines 98-316)

The writer buffers validated and error items separately and flushes in
batches.  The sink (`TableManager.insert_records`) is external; a flush
emits a list of `(table name, records)` writes, and a sink exception
part-way through a flush is modelled by `failAfter = some k`: the first
`k` insert calls succeeded, the `k`-th raised, the `except` logs it and
the buffer is cleared regardless. -/

/-- Pipeline state: the two buffers and whether `open_spider` obtained
a table manager. -/
structure WriterState where
  items_buffer : List Dict
  error_items_buffer : List Dict
  table_manager : Bool
deriving Repr, DecidableEq

/-- `self.buffer_size = 100`. -/
def buffer_size : ℕ := 100

/-- `open_spider` state (`connected` tells whether `get_table_manager`
succeeded). -/
def openSpider (connected : Bool) : WriterState :=
  { items_buffer := [], error_items_buffer := [], table_manager := connected }

/-- `item.get("category") == c` grouping test of `_write_batch`. -/
def isCat (c : String) (it : Dict) : Bool :=
  dget it "category" == some (.pstr c)

/-- The grouped non-empty writes a batch write attempts, in source
order; `errorTables` selects the `<category>_error` table names. -/
def groupedWrites (buf : List Dict) (errorTables : Bool) :
    List (String × List Dict) :=
  let suffix := if errorTables then "_error" else ""
  let t := buf.filter (isCat "tractor")
  let c := buf.filter (isCat "combine")
  let i := buf.filter (isCat "implement")
  (if !t.isEmpty then [("tractors" ++ suffix, t)] else []) ++
  (if !c.isEmpty then [("combines" ++ suffix, c)] else []) ++
  (if !i.isEmpty then [("implements" ++ suffix, i)] else [])

/-- `_write_batch`: with no table manager the buffer is dropped;
otherwise the per-category groups are written (a sink failure after `k`
inserts truncates the writes) and `self.items_buffer = []` runs
unconditionally after the `try/except`. -/
def writeBatch (st : WriterState) (failAfter : Option ℕ) :
    WriterState × List (String × List Dict) :=
  if !st.table_manager then ({ st with items_buffer := [] }, [])
  else
    let writes := groupedWrites st.items_buffer false
    ({ st with items_buffer := [] },
     match failAfter with
     | none => writes
     | some k => writes.take k)

/-- `_write_error_batch`: same shape over the error buffer and the
`*_error` tables. -/
def writeErrorBatch (st : WriterState) (failAfter : Option ℕ) :
    WriterState × List (String × List Dict) :=
  if !st.table_manager then ({ st with error_items_buffer := [] }, [])
  else
    let writes := groupedWrites st.error_items_buffer true
    ({ st with error_items_buffer := [] },
     match failAfter with
     | none => writes
     | some k => writes.take k)

/-- `UnityCatalogWriterPipeline.process_item`: append to the buffer
chosen by the `_validation_error` marker and flush it once it reaches
`buffer_size`. -/
def wProcessItem (st : WriterState) (item : Dict) (failAfter : Option ℕ) :
    WriterState × List (String × List Dict) :=
  if dmem item "_validation_error" then
    let st := { st with error_items_buffer := st.error_items_buffer ++ [item] }
    if st.error_items_buffer.length ≥ buffer_size then writeErrorBatch st failAfter
    else (st, [])
  else
    let st := { st with items_buffer := st.items_buffer ++ [item] }
    if st.items_buffer.length ≥ buffer_size then writeBatch st failAfter
    else (st, [])

/-- `close_spider`: flush whichever buffers are non-empty. -/
def closeSpider (st : WriterState) (f1 f2 : Option ℕ) :
    WriterState × List (String × List Dict) :=
  let r1 := if !st.items_buffer.isEmpty then writeBatch st f1 else (st, [])
  let r2 :=
    if !r1.1.error_items_buffer.isEmpty then writeErrorBatch r1.1 f2
    else (r1.1, [])
  (r2.1, r1.2 ++ r2.2)

/-! ## Dictionary lemmas -/

theorem find?_map_overwrite (k k' : String) (v : PVal) (h : k' ≠ k) (d : Dict) :
    (d.map (fun p => if p.1 == k then (k, v) else p)).find? (fun p => p.1 == k')
      = d.find? (fun p => p.1 == k') := by
  induction d with
  | nil => rfl
  | cons a t ih =>
    by_cases hak : a.1 = k
    · have hk' : (a.1 == k') = false := beq_eq_false_iff_ne.mpr (hak ▸ fun hkk => h hkk.symm)
      have hkk' : (k == k') = false := beq_eq_false_iff_ne.mpr (fun hkk => h hkk.symm)
      simp only [List.map_cons, List.find?_cons, hak, beq_self_eq_true, if_true, hk', hkk']
      exact ih
    · have hak' : (a.1 == k) = false := beq_eq_false_iff_ne.mpr hak
      simp only [List.map_cons, List.find?_cons, hak', Bool.false_eq_true, if_false]
      cases hx : (a.1 == k') with
      | true => rfl
      | false => exact ih

theorem find?_eq_none_of_dmem_false {d : Dict} {k : String} (h : dmem d k = false) :
    d.find? (fun p => p.1 == k) = none := by
  rw [List.find?_eq_none]
  intro p hp hb
  have hx : d.any (fun p => p.1 == k) = true := List.any_eq_true.mpr ⟨p, hp, hb⟩
  rw [dmem] at h
  rw [h] at hx
  exact Bool.false_ne_true hx

/-- Assigning key `k` leaves every other key's lookup unchanged. -/
theorem dget_dset_of_ne (d : Dict) (k k' : String) (v : PVal) (h : k' ≠ k) :
    dget (dset d k v) k' = dget d k' := by
  unfold dset
  by_cases hm : dmem d k
  · simp only [hm, if_true, dget, find?_map_overwrite k k' v h d]
  · simp only [hm, Bool.false_eq_true, if_false, dget, List.find?_append]
    have hone : ([(k, v)].find? (fun p => p.1 == k')) = none := by
      have : (k == k') = false := beq_eq_false_iff_ne.mpr (fun hkk => h hkk.symm)
      simp [List.find?_cons, this]
    cases hx : d.find? (fun p => p.1 == k') with
    | some p => simp [hx]
    | none => simp [hx, hone]

theorem find?_map_overwrite_self (k : String) (v : PVal) (d : Dict)
    (h : dmem d k = true) :
    (d.map (fun p => if p.1 == k then (k, v) else p)).find? (fun p => p.1 == k)
      = some (k, v) := by
  induction d with
  | nil => simp [dmem] at h
  | cons a t ih =>
    by_cases ha : a.1 = k
    · simp [ha]
    · have ha' : (a.1 == k) = false := beq_eq_false_iff_ne.mpr ha
      have ht : dmem t k = true := by simpa [dmem, ha'] using h
      simp only [List.map_cons, ha', Bool.false_eq_true, if_false, List.find?_cons]
      exact ht ▸ ih ht

/-- Assigning key `k` makes its lookup the assigned value. -/
theorem dget_dset_self (d : Dict) (k : String) (v : PVal) :
    dget (dset d k v) k = some v := by
  unfold dset
  by_cases hm : dmem d k
  · simp only [hm, if_true, dget, find?_map_overwrite_self k v d hm]
    rfl
  · simp only [hm, Bool.false_eq_true, if_false, dget, List.find?_append,
      find?_eq_none_of_dmem_false (Bool.eq_false_iff.mpr hm)]
    simp

/-- Assigning an absent key appends the pair. -/
theorem dset_eq_append {d : Dict} {k : String} (v : PVal) (h : dmem d k = false) :
    dset d k v = d ++ [(k, v)] := by
  simp [dset, h]

/-! ## Which keys each Spec Mapper block writes -/

theorem dget_mapNumField_of_ne (bag : SpecBag) (r o : String) (d : Dict) (k : String)
    (h : k ≠ o) : dget (mapNumField bag r o d) k = dget d k := by
  unfold mapNumField
  repeat' split
  all_goals simp_all [dget_dset_of_ne]

theorem dget_mapYears_of_ne (bag : SpecBag) (d : Dict) (k : String)
    (h1 : k ≠ "year_start") (h2 : k ≠ "year_end") :
    dget (mapYears bag d) k = dget d k := by
  unfold mapYears
  cases bagGet bag "Years manufactured" with
  | none => rfl
  | some ym =>
    by_cases hym : ym != ""
    · simp only [hym, if_true]
      split
      all_goals
        cases pythonInt? (pyStrip (((pySplitChar '-' ym.data).map
            (fun cs => (⟨cs⟩ : String))).getD 0 "")) <;>
        cases pythonInt? (pyStrip (((pySplitChar '-' ym.data).map
            (fun cs => (⟨cs⟩ : String))).getD 1 "")) <;>
        simp [dget_dset_of_ne _ _ _ _ h1, dget_dset_of_ne _ _ _ _ h2]
    · simp [hym]

theorem dget_mapTransmission_of_ne (bag : SpecBag) (d : Dict) (k : String)
    (h : k ≠ "transmission_type") :
    dget (mapTransmission bag d) k = dget d k := by
  unfold mapTransmission
  repeat' split
  all_goals simp_all [dget_dset_of_ne]

theorem dget_mapGears_of_ne (bag : SpecBag) (d : Dict) (k : String)
    (h1 : k ≠ "forward_gears") (h2 : k ≠ "reverse_gears") :
    dget (mapGears bag d) k = dget d k := by
  unfold mapGears
  cases bagGet bag "Fwd rev standard" with
  | none => rfl
  | some s =>
    cases hf : (parseFwdRev s).1 <;> cases hr : (parseFwdRev s).2 <;>
      simp [hf, hr, dget_dset_of_ne _ _ _ _ h1, dget_dset_of_ne _ _ _ _ h2]

theorem dget_mapHydraulics_of_ne (bag : SpecBag) (d : Dict) (k : String)
    (h : k ≠ "hydraulic_flow") :
    dget (mapHydraulics bag d) k = dget d k := by
  unfold mapHydraulics
  have hbase := dget_mapNumField_of_ne bag "Hydraulics flow" "hydraulic_flow" d k h
  cases hc : extract_numeric (bagGet bag "Hydraulics capacity") with
  | none => simpa using hbase
  | some q =>
    by_cases hq : q = 0
    · simp [hq, hbase]
    · by_cases hm : dmem (mapNumField bag "Hydraulics flow" "hydraulic_flow" d) "hydraulic_flow"
      · simp [hq, hm, hbase]
      · simp [hq, hm, dget_dset_of_ne _ _ _ _ h, hbase]

theorem dget_appendDesc_of_ne (d : Dict) (frag : String) (k : String)
    (h : k ≠ "description") :
    dget (appendDesc d frag) k = dget d k := by
  unfold appendDesc
  repeat' split
  all_goals simp_all [dget_dset_of_ne]

theorem dget_mapDescField_of_ne (bag : SpecBag) (r pre post : String) (d : Dict)
    (k : String) (h : k ≠ "description") :
    dget (mapDescField bag r pre post d) k = dget d k := by
  unfold mapDescField
  repeat' split
  all_goals simp_all [dget_appendDesc_of_ne]

theorem dget_mapDescriptions_of_ne (bag : SpecBag) (d : Dict) (k : String)
    (h : k ≠ "description") :
    dget (mapDescriptions bag d) k = dget d k := by
  unfold mapDescriptions
  simp only [dget_mapDescField_of_ne _ _ _ _ _ _ h]

theorem dget_cleanupDesc_of_ne (d : Dict) (k : String) (h : k ≠ "description") :
    dget (cleanupDesc d) k = dget d k := by
  unfold cleanupDesc
  repeat' split
  all_goals simp_all [dget_dset_of_ne]

/-- The keys the Spec Mapper's field blocks may write. -/
def mapperKeys : List String :=
  ["year_start", "year_end", "pto_hp", "engine_hp", "transmission_type",
   "forward_gears", "reverse_gears", "hydraulic_flow", "weight_lbs",
   "wheelbase_inches", "hitch_lift_capacity", "description"]

/-- `mapSpecFields` leaves every key outside `mapperKeys` alone. -/
theorem dget_mapSpecFields_of_not_mem (bag : SpecBag) (d : Dict) (k : String)
    (hk : k ∉ mapperKeys) :
    dget (mapSpecFields bag d) k = dget d k := by
  simp only [mapperKeys, List.mem_cons, List.not_mem_nil, or_false, not_or] at hk
  obtain ⟨h1, h2, h3, h4, h5, h6, h7, h8, h9, h10, h11, h12⟩ := hk
  unfold mapSpecFields
  rw [dget_cleanupDesc_of_ne _ _ h12, dget_mapDescriptions_of_ne _ _ _ h12,
    dget_mapNumField_of_ne _ _ _ _ _ h11, dget_mapNumField_of_ne _ _ _ _ _ h10,
    dget_mapNumField_of_ne _ _ _ _ _ h9, dget_mapHydraulics_of_ne _ _ _ h8,
    dget_mapGears_of_ne _ _ _ h6 h7, dget_mapTransmission_of_ne _ _ _ h5,
    dget_mapNumField_of_ne _ _ _ _ _ h4, dget_mapNumField_of_ne _ _ _ _ _ h3,
    dget_mapYears_of_ne _ _ _ h1 h2]

/-! ## Digit-string lemmas -/

theorem digit_toUpper (c : Char) (h : c.isDigit = true) : c.toUpper = c := by
  simp only [Char.isDigit, decide_eq_true_eq, Bool.and_eq_true] at h
  have h2 : c.toNat ≤ 57 := h.2
  simp only [Char.toUpper, Char.isLower]
  split
  · next hlo =>
    exfalso
    have h3 : 97 ≤ c.toNat := hlo.1
    omega
  · rfl

theorem map_toUpper_digits (l : List Char) (hall : l.all Char.isDigit = true) :
    l.map Char.toUpper = l := by
  induction l with
  | nil => rfl
  | cons a t ih =>
    simp only [List.all_cons, Bool.and_eq_true] at hall
    simp [digit_toUpper a hall.1, ih hall.2]

theorem digits_contains_false (l : List Char) (hall : l.all Char.isDigit = true)
    (c : Char) (hc : c.isDigit = false) : l.contains c = false := by
  rw [Bool.eq_false_iff]
  intro hcon
  have hmem : c ∈ l := by simpa using hcon
  have hcd := List.all_eq_true.mp hall c hmem
  rw [hcd] at hc
  exact Bool.noConfusion hc

theorem digit_string_all {s : String} (h : pyIsDigit s = true) :
    s.data.all Char.isDigit = true := by
  unfold pyIsDigit at h
  simp only [Bool.and_eq_true] at h
  exact h.2

theorem digit_string_ne_empty {s : String} (h : pyIsDigit s = true) :
    (s == "") = false := by
  refine beq_eq_false_iff_ne.mpr fun hst => ?_
  unfold pyIsDigit at h
  simp only [Bool.and_eq_true] at h
  obtain ⟨h1, _⟩ := h
  rw [hst] at h1
  exact Bool.noConfusion h1

theorem digit_string_beq_false {s : String} (h : pyIsDigit s = true)
    (t : String) (ht : t.data.all Char.isDigit = false) : (s == t) = false := by
  refine beq_eq_false_iff_ne.mpr fun hst => ?_
  rw [hst] at h
  rw [digit_string_all h] at ht
  exact Bool.noConfusion ht

/-! ## Claim theorems for the Value Normalizer -/

/-- C4: `extract_numeric` is total and never raises; it returns absent
for `None`, the literal `"null"`, and whitespace-only strings; after
unit stripping, a cleaned string with a non-leading hyphen keeps the
part before the first hyphen, and a single-slash compound parses the
part after the slash; and the four quoted evaluations hold. -/
theorem extract_numeric_spec :
    extract_numeric none = none ∧
    extract_numeric (some "null") = none ∧
    (∀ v : String, pyStrip v = "" → extract_numeric (some v) = none) ∧
    (∀ c : String, pyContains c '-' = true → pyStartsWith c "-" = false →
      hyphenStep c = pyStrip ⟨(pySplitChar '-' c.data).headD []⟩) ∧
    (∀ c : String, pyContains c '/' = true → (pySplitChar '/' c.data).length = 2 →
      slashStep c = pythonFloat? ⟨(pySplitChar '/' c.data).getD 1 []⟩) ∧
    extract_numeric (some "7,700 lbs") = some 7700 ∧
    extract_numeric (some "null") = none ∧
    extract_numeric (some "17-20") = some 17 ∧
    extract_numeric (some "3/77.2") = some (386 / 5) := by
  refine ⟨rfl, rfl, ?_, ?_, ?_, ?_, rfl, ?_, ?_⟩
  · intro v h
    simp [extract_numeric, h]
  · intro c h1 h2
    simp [hyphenStep, h1, h2]
  · intro c h1 h2
    simp [slashStep, h1, h2]
  · have h : extract_numeric (some "7,700 lbs") = some ((7700 : ℕ) : ℚ) := rfl
    rw [h]; norm_num
  · have h : extract_numeric (some "17-20") = some ((17 : ℕ) : ℚ) := rfl
    rw [h]; norm_num
  · have h : extract_numeric (some "3/77.2")
        = some (((77 : ℕ) : ℚ) + ((2 : ℕ) : ℚ) / (10 : ℚ) ^ (1 : ℕ)) := rfl
    rw [h]; norm_num

/-- Witness for C4 at concrete inputs. -/
theorem extract_numeric_spec_witness :
    pyStrip " " = "" ∧ extract_numeric (some " ") = none ∧
    pyContains "17-20" '-' = true ∧ pyStartsWith "17-20" "-" = false ∧
    hyphenStep "17-20" = pyStrip ⟨(pySplitChar '-' "17-20".data).headD []⟩ ∧
    pyContains "3/77.2" '/' = true ∧ (pySplitChar '/' "3/77.2".data).length = 2 ∧
    slashStep "3/77.2" = pythonFloat? ⟨(pySplitChar '/' "3/77.2".data).getD 1 []⟩ :=
  ⟨by decide, extract_numeric_spec.2.2.1 " " (by decide), by decide, by decide,
   extract_numeric_spec.2.2.2.1 "17-20" (by decide) (by decide), by decide, by decide,
   extract_numeric_spec.2.2.2.2.1 "3/77.2" (by decide) (by decide)⟩

/-- C2 counterexample: for the length-3 digit string `"121"` the code
sets the reverse gear count from the second digit only (giving
`(1, 2)`), not from all remaining digits (which would give `(1, 21)`). -/
theorem gear_digit_string_cex :
    parseFwdRev "121" = (some 1, some 2) ∧
    parseFwdRev "121" ≠ (some 1, some 21) := by
  constructor
  · decide
  · decide

/-- C2 amended: a bare digit string of length 2 or 3 parses as (first
digit, second digit) — a third digit is ignored, so only for length 2
is the reverse count "all remaining digits"; digit strings of length 4
or more yield both fields absent; and the three quoted evaluations
hold. -/
theorem gear_digit_string_amended :
    parseFwdRev "8F/4R" = (some 8, some 4) ∧
    parseFwdRev "12/6" = (some 12, some 6) ∧
    parseFwdRev "42" = (some 4, some 2) ∧
    (∀ s : String, pyIsDigit s = true → 2 ≤ s.data.length → s.data.length ≤ 3 →
      parseFwdRev s
        = (some (digitVal (s.data.getD 0 ' ')), some (digitVal (s.data.getD 1 ' ')))) ∧
    (∀ s : String, pyIsDigit s = true → 4 ≤ s.data.length →
      parseFwdRev s = (none, none)) := by
  refine ⟨by decide, by decide, by decide, ?_, ?_⟩
  · intro s hd hlen2 hlen3
    have hall := digit_string_all hd
    have hF : pyContains (pyUpper s) 'F' = false := by
      show (s.data.map Char.toUpper).contains 'F' = false
      rw [map_toUpper_digits _ hall]
      exact digits_contains_false _ hall 'F' (by decide)
    have hS : pyContains s '/' = false := digits_contains_false _ hall '/' (by decide)
    have he : (s == "") = false := digit_string_ne_empty hd
    have hn : (s == "null") = false := digit_string_beq_false hd "null" (by decide)
    unfold parseFwdRev
    simp only [he, hn, Bool.or_self, Bool.false_eq_true, if_false, hF, Bool.false_and,
      hS, hd, Bool.true_and, ge_iff_le, decide_eq_true_eq]
    rw [if_pos hlen2, if_pos hlen3]
    obtain ⟨data⟩ := s
    cases data with
    | nil => simp at hlen2
    | cons c1 t =>
      cases t with
      | nil => simp at hlen2
      | cons c2 r => rfl
  · intro s hd hlen4
    have hall := digit_string_all hd
    have hF : pyContains (pyUpper s) 'F' = false := by
      show (s.data.map Char.toUpper).contains 'F' = false
      rw [map_toUpper_digits _ hall]
      exact digits_contains_false _ hall 'F' (by decide)
    have hS : pyContains s '/' = false := digits_contains_false _ hall '/' (by decide)
    have he : (s == "") = false := digit_string_ne_empty hd
    have hn : (s == "null") = false := digit_string_beq_false hd "null" (by decide)
    have hlen2 : 2 ≤ s.data.length := by omega
    have hlen3 : ¬s.data.length ≤ 3 := by omega
    unfold parseFwdRev
    simp only [he, hn, Bool.or_self, Bool.false_eq_true, if_false, hF, Bool.false_and,
      hS, hd, Bool.true_and, ge_iff_le, decide_eq_true_eq]
    rw [if_pos hlen2, if_neg hlen3]

/-- Witness for C2's amended statement at the digit strings `"42"`,
`"121"` and `"4261"`. -/
theorem gear_digit_string_amended_witness :
    parseFwdRev "42" = (some (digitVal '4'), some (digitVal '2')) ∧
    parseFwdRev "121" = (some (digitVal '1'), some (digitVal '2')) ∧
    parseFwdRev "4261" = (none, none) :=
  ⟨gear_digit_string_amended.2.2.2.1 "42" (by decide) (by decide) (by decide),
   gear_digit_string_amended.2.2.2.1 "121" (by decide) (by decide) (by decide),
   gear_digit_string_amended.2.2.2.2 "4261" (by decide) (by decide)⟩

/-- C7: the make/model title parser returns the multi-word known make
`"Case IH"` (not the `"Case"` split the fallback would give), and a
single-word title with no known-make split parses to nothing. -/
theorem parse_make_model_spec :
    parseMakeModel "Case IH Farmall 75C" = some ("Case IH", "Farmall 75C") ∧
    parseMakeModel "Case IH Farmall 75C" ≠ some ("Case", "IH Farmall 75C") ∧
    parseMakeModel "SingleWord" = none := by
  refine ⟨by decide, ?_, by decide⟩
  decide

/-! ## Claim theorems for the Spec Mapper -/

/-- C6: every Spec Mapper output carries the four base identity fields
with the supplied values, and an undecodable JSON spec string yields
exactly those four fields (no raise, base identity fields only). -/
theorem spec_mapper_base_fields (p : SpecPayload) (mk mo url : String) :
    dget (mapApiResponseToTractor p mk mo url) "make" = some (.pstr mk) ∧
    dget (mapApiResponseToTractor p mk mo url) "model" = some (.pstr mo) ∧
    dget (mapApiResponseToTractor p mk mo url) "category" = some (.pstr "tractor") ∧
    dget (mapApiResponseToTractor p mk mo url) "source_url" = some (.pstr url) ∧
    mapApiResponseToTractor .strUndecodable mk mo url =
      [("make", .pstr mk), ("model", .pstr mo), ("category", .pstr "tractor"),
       ("source_url", .pstr url)] := by
  have H : ∀ (k : String), k ∉ mapperKeys →
      dget (mapApiResponseToTractor p mk mo url) k =
        dget [("make", PVal.pstr mk), ("model", PVal.pstr mo),
          ("category", PVal.pstr "tractor"), ("source_url", PVal.pstr url)] k := by
    intro k hk
    cases p <;>
      simp only [mapApiResponseToTractor, specBagOf, dget_mapSpecFields_of_not_mem _ _ _ hk]
  exact ⟨by rw [H "make" (by decide)]; rfl,
    by rw [H "model" (by decide)]; rfl,
    by rw [H "category" (by decide)]; rfl,
    by rw [H "source_url" (by decide)]; rfl,
    rfl⟩

/-- A numeric field whose extraction normalizes to `0.0` is skipped by
the walrus-guarded assignment. -/
theorem mapNumField_zero {bag : SpecBag} {r o : String} (d : Dict)
    (h : extract_numeric (bagGet bag r) = some 0) :
    mapNumField bag r o d = d := by
  simp [mapNumField, h]

/-- The hydraulics block leaves the dictionary alone when the flow
normalizes to `0.0` and the capacity fallback has nothing nonzero. -/
theorem mapHydraulics_zero {bag : SpecBag} (d : Dict)
    (hf : extract_numeric (bagGet bag "Hydraulics flow") = some 0)
    (hc : extract_numeric (bagGet bag "Hydraulics capacity") = none ∨
      extract_numeric (bagGet bag "Hydraulics capacity") = some 0) :
    mapHydraulics bag d = d := by
  unfold mapHydraulics
  rw [mapNumField_zero d hf]
  rcases hc with hc | hc <;> simp [hc]

/-- C9 counterexample: with `Hydraulics flow` normalizing to `0.0` but
`Hydraulics capacity` to `5.0`, the mapped dictionary still carries a
`hydraulic_flow` field (from the capacity fallback), so the claimed
omission fails for the `Hydraulics flow` field. -/
def c9bag : SpecBag := [("Hydraulics flow", some "0"), ("Hydraulics capacity", some "5")]

theorem zero_hydraulic_flow_cex :
    extract_numeric (bagGet c9bag "Hydraulics flow") = some 0 ∧
    dget (mapApiResponseToTractor (.dictVal c9bag) "M" "T" "u") "hydraulic_flow" ≠ none := by
  constructor
  · have h : extract_numeric (bagGet c9bag "Hydraulics flow") = some ((0 : ℕ) : ℚ) := rfl
    rw [h]; norm_num
  · intro hnone
    have h : (dget (mapApiResponseToTractor (.dictVal c9bag) "M" "T" "u")
        "hydraulic_flow").isSome = true := rfl
    rw [hnone] at h
    exact Bool.noConfusion h

/-- C9 amended: when one of the six numeric spec fields normalizes to
`0.0` the corresponding output field is omitted, except that
`hydraulic_flow` can still be populated from the `Hydraulics capacity`
fallback; it too is omitted when that fallback yields nothing nonzero.
A genuine zero is thus indistinguishable from an absent value in the
mapped dictionary. -/
theorem zero_numeric_fields_omitted (bag : SpecBag) (mk mo url : String) :
    (extract_numeric (bagGet bag "Hp pto") = some 0 →
      dget (mapApiResponseToTractor (.dictVal bag) mk mo url) "pto_hp" = none) ∧
    (extract_numeric (bagGet bag "Hp engine") = some 0 →
      dget (mapApiResponseToTractor (.dictVal bag) mk mo url) "engine_hp" = none) ∧
    (extract_numeric (bagGet bag "Weight") = some 0 →
      dget (mapApiResponseToTractor (.dictVal bag) mk mo url) "weight_lbs" = none) ∧
    (extract_numeric (bagGet bag "Wheelbase inches") = some 0 →
      dget (mapApiResponseToTractor (.dictVal bag) mk mo url) "wheelbase_inches" = none) ∧
    (extract_numeric (bagGet bag "Hitch lift") = some 0 →
      dget (mapApiResponseToTractor (.dictVal bag) mk mo url) "hitch_lift_capacity" = none) ∧
    (extract_numeric (bagGet bag "Hydraulics flow") = some 0 →
      (extract_numeric (bagGet bag "Hydraulics capacity") = none ∨
        extract_numeric (bagGet bag "Hydraulics capacity") = some 0) →
      dget (mapApiResponseToTractor (.dictVal bag) mk mo url) "hydraulic_flow" = none) := by
  refine ⟨?_, ?_, ?_, ?_, ?_, ?_⟩
  · intro h
    show dget (mapSpecFields bag _) "pto_hp" = none
    unfold mapSpecFields
    rw [dget_cleanupDesc_of_ne _ _ (by decide), dget_mapDescriptions_of_ne _ _ _ (by decide),
      dget_mapNumField_of_ne _ _ _ _ _ (by decide), dget_mapNumField_of_ne _ _ _ _ _ (by decide),
      dget_mapNumField_of_ne _ _ _ _ _ (by decide), dget_mapHydraulics_of_ne _ _ _ (by decide),
      dget_mapGears_of_ne _ _ _ (by decide) (by decide), dget_mapTransmission_of_ne _ _ _ (by decide),
      dget_mapNumField_of_ne _ _ _ _ _ (by decide), mapNumField_zero _ h,
      dget_mapYears_of_ne _ _ _ (by decide) (by decide)]
    rfl
  · intro h
    show dget (mapSpecFields bag _) "engine_hp" = none
    unfold mapSpecFields
    rw [dget_cleanupDesc_of_ne _ _ (by decide), dget_mapDescriptions_of_ne _ _ _ (by decide),
      dget_mapNumField_of_ne _ _ _ _ _ (by decide), dget_mapNumField_of_ne _ _ _ _ _ (by decide),
      dget_mapNumField_of_ne _ _ _ _ _ (by decide), dget_mapHydraulics_of_ne _ _ _ (by decide),
      dget_mapGears_of_ne _ _ _ (by decide) (by decide), dget_mapTransmission_of_ne _ _ _ (by decide),
      mapNumField_zero _ h, dget_mapNumField_of_ne _ _ _ _ _ (by decide),
      dget_mapYears_of_ne _ _ _ (by decide) (by decide)]
    rfl
  · intro h
    show dget (mapSpecFields bag _) "weight_lbs" = none
    unfold mapSpecFields
    rw [dget_cleanupDesc_of_ne _ _ (by decide), dget_mapDescriptions_of_ne _ _ _ (by decide),
      dget_mapNumField_of_ne _ _ _ _ _ (by decide), dget_mapNumField_of_ne _ _ _ _ _ (by decide),
      mapNumField_zero _ h, dget_mapHydraulics_of_ne _ _ _ (by decide),
      dget_mapGears_of_ne _ _ _ (by decide) (by decide), dget_mapTransmission_of_ne _ _ _ (by decide),
      dget_mapNumField_of_ne _ _ _ _ _ (by decide), dget_mapNumField_of_ne _ _ _ _ _ (by decide),
      dget_mapYears_of_ne _ _ _ (by decide) (by decide)]
    rfl
  · intro h
    show dget (mapSpecFields bag _) "wheelbase_inches" = none
    unfold mapSpecFields
    rw [dget_cleanupDesc_of_ne _ _ (by decide), dget_mapDescriptions_of_ne _ _ _ (by decide),
      dget_mapNumField_of_ne _ _ _ _ _ (by decide), mapNumField_zero _ h,
      dget_mapNumField_of_ne _ _ _ _ _ (by decide), dget_mapHydraulics_of_ne _ _ _ (by decide),
      dget_mapGears_of_ne _ _ _ (by decide) (by decide), dget_mapTransmission_of_ne _ _ _ (by decide),
      dget_mapNumField_of_ne _ _ _ _ _ (by decide), dget_mapNumField_of_ne _ _ _ _ _ (by decide),
      dget_mapYears_of_ne _ _ _ (by decide) (by decide)]
    rfl
  · intro h
    show dget (mapSpecFields bag _) "hitch_lift_capacity" = none
    unfold mapSpecFields
    rw [dget_cleanupDesc_of_ne _ _ (by decide), dget_mapDescriptions_of_ne _ _ _ (by decide),
      mapNumField_zero _ h, dget_mapNumField_of_ne _ _ _ _ _ (by decide),
      dget_mapNumField_of_ne _ _ _ _ _ (by decide), dget_mapHydraulics_of_ne _ _ _ (by decide),
      dget_mapGears_of_ne _ _ _ (by decide) (by decide), dget_mapTransmission_of_ne _ _ _ (by decide),
      dget_mapNumField_of_ne _ _ _ _ _ (by decide), dget_mapNumField_of_ne _ _ _ _ _ (by decide),
      dget_mapYears_of_ne _ _ _ (by decide) (by decide)]
    rfl
  · intro hf hc
    show dget (mapSpecFields bag _) "hydraulic_flow" = none
    unfold mapSpecFields
    rw [dget_cleanupDesc_of_ne _ _ (by decide), dget_mapDescriptions_of_ne _ _ _ (by decide),
      dget_mapNumField_of_ne _ _ _ _ _ (by decide), dget_mapNumField_of_ne _ _ _ _ _ (by decide),
      dget_mapNumField_of_ne _ _ _ _ _ (by decide), mapHydraulics_zero _ hf hc,
      dget_mapGears_of_ne _ _ _ (by decide) (by decide), dget_mapTransmission_of_ne _ _ _ (by decide),
      dget_mapNumField_of_ne _ _ _ _ _ (by decide), dget_mapNumField_of_ne _ _ _ _ _ (by decide),
      dget_mapYears_of_ne _ _ _ (by decide) (by decide)]
    rfl

/-- Witness for C9's amended statement: a payload whose `Hp pto` is the
string `"0"` maps with no `pto_hp` field. -/
theorem zero_numeric_fields_omitted_witness :
    extract_numeric (bagGet [("Hp pto", some "0")] "Hp pto") = some 0 ∧
    dget (mapApiResponseToTractor (.dictVal [("Hp pto", some "0")]) "M" "T" "u")
      "pto_hp" = none := by
  have h : extract_numeric (bagGet [("Hp pto", some "0")] "Hp pto") = some 0 := by
    have h0 : extract_numeric (bagGet [("Hp pto", some "0")] "Hp pto")
        = some ((0 : ℕ) : ℚ) := rfl
    rw [h0]; norm_num
  exact ⟨h, (zero_numeric_fields_omitted [("Hp pto", some "0")] "M" "T" "u").1 h⟩

/-! ## Claim theorems for the Validation & Triage Pipeline -/

/-- C3 counterexample input: schema construction fails (no `model`) and
the input already uses the reserved `_validation_error` key. -/
def c3item : Dict :=
  [("make", .pstr "Deere"), ("category", .pstr "tractor"),
   ("_validation_error", .pstr "old")]

/-- C3 counterexample: on an input that already carries a
`_validation_error` key, `{**item, "_validation_error": ...}` overwrites
it, so the output does not contain every original key-value pair
unchanged. -/
theorem triage_reserved_key_cex :
    (∃ e, createEquipment c3item = .error e) ∧
    ("_validation_error", PVal.pstr "old") ∈ c3item ∧
    ("_validation_error", PVal.pstr "old") ∉ processItem c3item := by
  refine ⟨⟨"ValidationError: model", rfl⟩, by decide, by decide⟩

/-- C3 amended: for every failing input that does not itself use the
two reserved keys, the pipeline emits exactly one record — the original
pairs unchanged followed by exactly `_validation_error` (the
stringified failure) and `_error_type`; inputs that already use a
reserved key get that pair overwritten.  The embedded pipeline is a
total function (never raises). -/
theorem triage_preserves_input (d : Dict) (e : String)
    (h : createEquipment d = .error e)
    (h1 : dmem d "_validation_error" = false)
    (h2 : dmem d "_error_type" = false) :
    processItem d =
      d ++ [("_validation_error", .pstr e), ("_error_type", .pstr "ValidationError")] := by
  unfold processItem
  rw [h]
  show dset (dset d "_validation_error" (.pstr e)) "_error_type" (.pstr "ValidationError") = _
  rw [dset_eq_append _ h1]
  have h2' : dmem (d ++ [("_validation_error", PVal.pstr e)]) "_error_type" = false := by
    simp only [dmem, List.any_append]
    rw [dmem] at h2
    simp [h2]
  rw [dset_eq_append _ h2']
  simp

/-- Witness for C3's amended statement at the empty input dictionary. -/
theorem triage_preserves_input_witness :
    processItem ([] : Dict) =
      [("_validation_error", PVal.pstr "ValidationError: category, make, model"),
       ("_error_type", PVal.pstr "ValidationError")] := by
  have h : createEquipment ([] : Dict)
      = .error "ValidationError: category, make, model" := rfl
  simpa using triage_preserves_input [] _ h rfl rfl

/-- A dictionary with valid identity fields and both production years. -/
def yearDict (mk mo cat : String) (ys ye : ℤ) : Dict :=
  [("make", .pstr mk), ("model", .pstr mo), ("category", .pstr cat),
   ("year_start", .pint ys), ("year_end", .pint ye)]

/-- C5: with valid identity fields and both years integers in
[1900, 2100] (over every category of the enumeration), schema
construction succeeds iff `year_start ≤ year_end`. -/
theorem year_range_validation (mk mo cat : String) (ys ye : ℤ)
    (hcat : cat ∈ pyCategories) (h1 : 1900 ≤ ys) (h2 : ys ≤ 2100)
    (h3 : 1900 ≤ ye) (h4 : ye ≤ 2100) :
    (∃ out, createEquipment (yearDict mk mo cat ys ye) = .ok out) ↔ ys ≤ ye := by
  have hcat' : cat = "tractor" ∨ cat = "combine" ∨ cat = "implement" ∨
      cat = "harvester" ∨ cat = "planter" ∨ cat = "sprayer" ∨ cat = "other" := by
    simpa [pyCategories] using hcat
  rcases hcat' with rfl | rfl | rfl | rfl | rfl | rfl | rfl <;>
    by_cases hy : ys ≤ ye <;>
    simp [createEquipment, yearDict, tractorErrors, combineErrors, sprayerErrors,
      implementErrors, commonErrors, commonFieldErrors, chk, dget, okLitCategory,
      okReqCategory, okOptNumGE0, okOptNumRange, okOptIntRange, okOptIntGE, okOptEnum,
      okOptStr, okOptBool, reqStr, coerceInt?, coerceNum?, yearRangeOk, yearVal?,
      speedRangeOk, speedVal?, hpRangeOk, hpVal?, pyCategories,
      h1, h2, h3, h4, hy]

/-- Witness for C5: a concrete in-range success and the bound checks. -/
theorem year_range_validation_witness :
    (∃ out, createEquipment (yearDict "John Deere" "5075E" "tractor" 2014 2020)
      = .ok out) ∧
    ¬(∃ out, createEquipment (yearDict "John Deere" "5075E" "combine" 2020 2014)
      = .ok out) :=
  ⟨(year_range_validation "John Deere" "5075E" "tractor" 2014 2020 (by decide)
      (by decide) (by decide) (by decide) (by decide)).mpr (by decide),
   fun hex => absurd ((year_range_validation "John Deere" "5075E" "combine" 2020 2014
      (by decide) (by decide) (by decide) (by decide) (by decide)).mp hex) (by decide)⟩

theorem dmem_of_dget_some {d : Dict} {k : String} {v : PVal}
    (h : dget d k = some v) : dmem d k = true := by
  unfold dget at h
  unfold dmem
  cases hf : d.find? (fun p => p.1 == k) with
  | none => rw [hf] at h; exact Option.noConfusion h
  | some p =>
    have hp := List.find?_some hf
    have hmem := List.mem_of_find?_eq_some hf
    exact List.any_eq_true.mpr ⟨p, hmem, hp⟩

/-- The Spec Mapper's base output for `(mk, mo, url)`. -/
def baseFields (mk mo url : String) : Dict :=
  [("make", .pstr mk), ("model", .pstr mo), ("category", .pstr "tractor"),
   ("source_url", .pstr url)]

/-- C10 counterexample: the empty string satisfies the claim's
conditions (its trimmed uppercase form is not in the abbreviation table
and its lowercased form is not a transmission enum value), yet the
mapper's falsy/`"null"` guard skips the block entirely: no
`transmission_type` is emitted and schema construction succeeds. -/
theorem falsy_transmission_skipped_cex :
    transMap.find? (fun p => p.1 == pyUpper (pyStrip "")) = none ∧
    transmissionEnum.contains (pyLower (pyUpper (pyStrip ""))) = false ∧
    dget (mapApiResponseToTractor (.dictVal [("Transmission std", some "")]) "M" "T" "u")
      "transmission_type" = none ∧
    (∃ out, createEquipment (mapApiResponseToTractor
      (.dictVal [("Transmission std", some "")]) "M" "T" "u") = .ok out) := by
  refine ⟨by decide, by decide, rfl, ⟨_, rfl⟩⟩

/-- C10 amended: for every truthy, non-`"null"` raw `Transmission std`
value not in the abbreviation table after strip/uppercase and whose
lowercased form is not a transmission enum value, the mapper emits the
lowercased text — never coerced to `"other"` — the subsequent `Tractor`
construction fails, and the triage pipeline emits the record as an
error record. -/
theorem unknown_transmission_rejected (ts mk mo url : String)
    (hne : (ts == "") = false) (hnull : (ts == "null") = false)
    (hmap : transMap.find? (fun p => p.1 == pyUpper (pyStrip ts)) = none)
    (henum : transmissionEnum.contains (pyLower (pyUpper (pyStrip ts))) = false) :
    dget (mapApiResponseToTractor (.dictVal [("Transmission std", some ts)]) mk mo url)
        "transmission_type" = some (.pstr (pyLower (pyUpper (pyStrip ts)))) ∧
    dget (mapApiResponseToTractor (.dictVal [("Transmission std", some ts)]) mk mo url)
        "transmission_type" ≠ some (.pstr "other") ∧
    createEquipment (mapApiResponseToTractor (.dictVal [("Transmission std", some ts)]) mk mo url)
      = .error "ValidationError: transmission_type" ∧
    dmem (processItem (mapApiResponseToTractor (.dictVal [("Transmission std", some ts)]) mk mo url))
      "_validation_error" = true := by
  have hbase_ne : dmem (baseFields mk mo url) "transmission_type" = false := rfl
  have htr : mapTransmission [("Transmission std", some ts)] (baseFields mk mo url)
      = baseFields mk mo url
        ++ [("transmission_type", PVal.pstr (pyLower (pyUpper (pyStrip ts))))] := by
    unfold mapTransmission
    rw [show bagGet [("Transmission std", some ts)] "Transmission std" = some ts from rfl]
    simp only [bne, hne, hnull, Bool.not_false, Bool.and_self, if_true]
    rw [hmap]
    exact dset_eq_append _ hbase_ne
  have hout : mapApiResponseToTractor (.dictVal [("Transmission std", some ts)]) mk mo url
      = baseFields mk mo url
        ++ [("transmission_type", PVal.pstr (pyLower (pyUpper (pyStrip ts))))] := by
    show mapSpecFields [("Transmission std", some ts)] (baseFields mk mo url) = _
    unfold mapSpecFields
    rw [show mapYears [("Transmission std", some ts)] (baseFields mk mo url)
        = baseFields mk mo url from rfl]
    rw [show mapNumField [("Transmission std", some ts)] "Hp pto" "pto_hp"
        (baseFields mk mo url) = baseFields mk mo url from rfl]
    rw [show mapNumField [("Transmission std", some ts)] "Hp engine" "engine_hp"
        (baseFields mk mo url) = baseFields mk mo url from rfl]
    rw [htr]
    generalize hx : baseFields mk mo url
        ++ [("transmission_type", PVal.pstr (pyLower (pyUpper (pyStrip ts))))] = x
    rw [show mapGears [("Transmission std", some ts)] x = x from rfl]
    rw [show mapHydraulics [("Transmission std", some ts)] x = x from rfl]
    rw [show mapNumField [("Transmission std", some ts)] "Weight" "weight_lbs" x = x from rfl]
    rw [show mapNumField [("Transmission std", some ts)] "Wheelbase inches"
        "wheelbase_inches" x = x from rfl]
    rw [show mapNumField [("Transmission std", some ts)] "Hitch lift"
        "hitch_lift_capacity" x = x from rfl]
    rw [show mapDescriptions [("Transmission std", some ts)] x = x from rfl]
    subst hx
    rfl
  have hget : dget (mapApiResponseToTractor (.dictVal [("Transmission std", some ts)]) mk mo url)
      "transmission_type" = some (.pstr (pyLower (pyUpper (pyStrip ts)))) := by
    rw [hout]; rfl
  have herr : tractorErrors (baseFields mk mo url
      ++ [("transmission_type", PVal.pstr (pyLower (pyUpper (pyStrip ts))))])
      = ["transmission_type"] := by
    have henum' : pyLower (pyUpper (pyStrip ts)) ∉ transmissionEnum := by
      simpa using henum
    unfold tractorErrors commonFieldErrors
    simp [chk, dget, baseFields, okLitCategory, reqStr, okOptStr, okOptIntRange,
      okOptIntGE, okOptNumGE0, okOptEnum, yearRangeOk, yearVal?, henum']
  have hce : createEquipment (mapApiResponseToTractor
      (.dictVal [("Transmission std", some ts)]) mk mo url)
      = .error "ValidationError: transmission_type" := by
    rw [hout]
    show (if (tractorErrors (baseFields mk mo url
        ++ [("transmission_type", PVal.pstr (pyLower (pyUpper (pyStrip ts))))])).isEmpty
      then Except.ok (modelDump (commonFields ++ tractorOwnFields) (some "tractor")
        (baseFields mk mo url
          ++ [("transmission_type", PVal.pstr (pyLower (pyUpper (pyStrip ts))))]))
      else Except.error ("ValidationError: " ++ String.intercalate ", "
        (tractorErrors (baseFields mk mo url
          ++ [("transmission_type", PVal.pstr (pyLower (pyUpper (pyStrip ts))))])))) = _
    rw [herr]
    rfl
  refine ⟨hget, ?_, hce, ?_⟩
  · rw [hget]
    intro heq
    have hv : PVal.pstr (pyLower (pyUpper (pyStrip ts))) = PVal.pstr "other" :=
      Option.some.inj heq
    have hs : pyLower (pyUpper (pyStrip ts)) = "other" := by
      injection hv
    rw [hs] at henum
    have hoth : transmissionEnum.contains "other" = true := by decide
    rw [henum] at hoth
    exact Bool.noConfusion hoth
  · unfold processItem
    rw [hce]
    have hin : dget (dset (dset (mapApiResponseToTractor
        (.dictVal [("Transmission std", some ts)]) mk mo url)
        "_validation_error" (.pstr "ValidationError: transmission_type"))
        "_error_type" (.pstr "ValidationError")) "_validation_error"
        = some (.pstr "ValidationError: transmission_type") := by
      rw [dget_dset_of_ne _ _ _ _ (by decide), dget_dset_self]
    exact dmem_of_dget_some hin

/-- Witness for C10 at the raw transmission text `"Sliding Gear"`. -/
theorem unknown_transmission_rejected_witness :
    dget (mapApiResponseToTractor (.dictVal [("Transmission std", some "Sliding Gear")])
      "Ford" "8N" "u") "transmission_type" = some (.pstr "sliding gear") ∧
    createEquipment (mapApiResponseToTractor
      (.dictVal [("Transmission std", some "Sliding Gear")]) "Ford" "8N" "u")
      = .error "ValidationError: transmission_type" := by
  have h := unknown_transmission_rejected "Sliding Gear" "Ford" "8N" "u"
    (by decide) (by decide) (by decide) (by decide)
  exact ⟨by rw [h.1]; rfl, h.2.2.1⟩

/-! ## Claim theorems for the Error Partitioner -/

/-- A validated sprayer record as it enters the writer pipeline. -/
def c1item : Dict :=
  [("make", .pstr "John Deere"), ("model", .pstr "R4045"),
   ("category", .pstr "sprayer")]

/-- Its validated dump (what `ValidationPipeline` forwards). -/
def c1dump : Dict := modelDump (commonFields ++ sprayerOwnFields) (some "sprayer") c1item

/-- C1 failing input: a validated sprayer record reaches the writer
with a connected sink; `_write_batch` groups only tractor / combine /
implement, so the flush performs zero writes while still clearing the
buffer — the sprayer record reaches no table and is lost, contradicting
the four-category claim and the repository's own `sprayers` table
setup. -/
theorem sprayer_record_dropped_on_flush :
    createEquipment c1item = .ok c1dump ∧
    dmem c1dump "_validation_error" = false ∧
    isCat "sprayer" c1dump = true ∧
    wProcessItem (openSpider true) c1dump none = (WriterState.mk [c1dump] [] true, []) ∧
    closeSpider (WriterState.mk [c1dump] [] true) none none = (openSpider true, []) := by
  refine ⟨rfl, rfl, rfl, ?_, ?_⟩
  · rfl
  · rfl

/-- C8: the writer's buffers stay below the batch size across
`process_item` (a buffer reaching 100 is flushed at once and comes back
empty), every `_write_batch`/`_write_error_batch` attempt leaves its
buffer empty even when the sink write raises part-way (`failAfter`),
and `close_spider` leaves both buffers empty. -/
theorem writer_buffer_invariants :
    (∀ (st : WriterState) (it : Dict) (f : Option ℕ),
      st.items_buffer.length < buffer_size →
      st.error_items_buffer.length < buffer_size →
      (wProcessItem st it f).1.items_buffer.length < buffer_size ∧
      (wProcessItem st it f).1.error_items_buffer.length < buffer_size) ∧
    (∀ (st : WriterState) (it : Dict) (f : Option ℕ),
      st.items_buffer.length + 1 = buffer_size →
      dmem it "_validation_error" = false →
      (wProcessItem st it f).1.items_buffer = []) ∧
    (∀ (st : WriterState) (f : Option ℕ), (writeBatch st f).1.items_buffer = []) ∧
    (∀ (st : WriterState) (f : Option ℕ),
      (writeErrorBatch st f).1.error_items_buffer = []) ∧
    (∀ (st : WriterState) (f1 f2 : Option ℕ),
      (closeSpider st f1 f2).1.items_buffer = [] ∧
      (closeSpider st f1 f2).1.error_items_buffer = []) := by
  have hwb : ∀ (st : WriterState) (f : Option ℕ),
      (writeBatch st f).1.items_buffer = [] ∧
      (writeBatch st f).1.error_items_buffer = st.error_items_buffer := by
    intro st f
    unfold writeBatch
    split <;> simp
  have hweb : ∀ (st : WriterState) (f : Option ℕ),
      (writeErrorBatch st f).1.error_items_buffer = [] ∧
      (writeErrorBatch st f).1.items_buffer = st.items_buffer := by
    intro st f
    unfold writeErrorBatch
    split <;> simp
  refine ⟨?_, ?_, fun st f => (hwb st f).1, fun st f => (hweb st f).1, ?_⟩
  · intro st it f hi he
    unfold wProcessItem
    dsimp only
    by_cases hv : dmem it "_validation_error" = true
    · rw [if_pos hv]
      by_cases hf : (st.error_items_buffer ++ [it]).length ≥ buffer_size
      · rw [if_pos hf]
        refine ⟨?_, ?_⟩
        · rw [(hweb _ f).2]
          exact hi
        · rw [(hweb _ f).1]
          simp [buffer_size]
      · rw [if_neg hf]
        exact ⟨hi, Nat.not_le.mp hf⟩
    · rw [if_neg hv]
      by_cases hf : (st.items_buffer ++ [it]).length ≥ buffer_size
      · rw [if_pos hf]
        refine ⟨?_, ?_⟩
        · rw [(hwb _ f).1]
          simp [buffer_size]
        · rw [(hwb _ f).2]
          exact he
      · rw [if_neg hf]
        exact ⟨Nat.not_le.mp hf, he⟩
  · intro st it f hlen hval
    unfold wProcessItem
    dsimp only
    rw [hval]
    simp only [Bool.false_eq_true, if_false]
    have hge : (st.items_buffer ++ [it]).length ≥ buffer_size := by
      simp only [List.length_append, List.length_cons, List.length_nil]
      omega
    rw [if_pos hge]
    exact (hwb _ f).1
  · intro st f1 f2
    have h2 : ∀ (w : WriterState),
        (if !w.error_items_buffer.isEmpty then writeErrorBatch w f2
          else (w, [])).1.error_items_buffer = [] ∧
        (if !w.error_items_buffer.isEmpty then writeErrorBatch w f2
          else (w, [])).1.items_buffer = w.items_buffer := by
      intro w
      by_cases hw : w.error_items_buffer.isEmpty
      · rw [hw]
        simp only [Bool.not_true, Bool.false_eq_true, if_false]
        exact ⟨List.isEmpty_iff.mp hw, by simp⟩
      · rw [Bool.eq_false_iff.mpr hw]
        simp only [Bool.not_false, if_true]
        exact ⟨(hweb w f2).1, (hweb w f2).2⟩
    have h1 : (if !st.items_buffer.isEmpty then writeBatch st f1
        else (st, [])).1.items_buffer = [] := by
      by_cases hi : st.items_buffer.isEmpty
      · rw [hi]
        simp only [Bool.not_true, Bool.false_eq_true, if_false]
        exact List.isEmpty_iff.mp hi
      · rw [Bool.eq_false_iff.mpr hi]
        simp only [Bool.not_false, if_true]
        exact (hwb st f1).1
    unfold closeSpider
    dsimp only
    exact ⟨((h2 _).2).trans h1, (h2 _).1⟩

/-- Witness for C8 at the freshly opened pipeline. -/
theorem writer_buffer_invariants_witness :
    (wProcessItem (openSpider true) [] none).1.items_buffer.length < buffer_size ∧
    (wProcessItem (openSpider true) [] none).1.error_items_buffer.length < buffer_size :=
  writer_buffer_invariants.1 (openSpider true) [] none (by decide) (by decide)

end QFS
